import Mathlib

/-!
# Verification of the kobra metaprogramming library

Shallow embedding, in Lean 4, of the behaviourally relevant fragments of the
`egg` decorator/metaprogramming package and the `hypnosis` import-hook package:

* `egg/decorating.py` : `has_decorator`, `decorators_of`, `_Decorator._call_internal`,
  and the side-effect-free `annotation` callables;
* `egg/modifiers.py`  : `final`, `singleton`, `freeze` (builtin branch),
  `call_once`, `_WrapperBase.__wrap__` / `unwrap`;
* `egg/io.py`         : `JsonIOSupporter.__Dumper.create_field` and `JsonIO._cast_data`;
* `egg/reflection.py` : the assignation-regex parsing behind `getter`;
* `hypnosis/interfaces.py` : `CsvInterface._as_python_object` and
  `ExtraInterface.exec_module`.

Python exceptions are embedded as an inductive of exception *kinds* (the
message payloads are immaterial to the properties below and are omitted).
Stateful Python code is embedded by explicit state passing: a function that
mutates its argument is modelled as returning both the Python-level result and
the post-call state of the mutated object.
-/

namespace Kobra

/-- The exception kinds raised by the code under study.  Each constructor is
one Python exception class; messages are dropped. -/
inductive PyErr where
  | typeError
  | valueError
  | nameError
  | syntaxError
  | unfreezableObjectError
  deriving Repr, DecidableEq

/-! ## Objects and decorator bookkeeping (`egg/decorating.py`)

A Python object is modelled by an identity, whether a `__decorators__`
attribute can be (re)assigned on it (`attachable` — false for builtins and for
slotted instances whose `__slots__` lacks `'__decorators__'`), and the current
value of its `__decorators__` attribute when present.  Decorators themselves
are referred to by numeric identity inside those lists. -/

structure PyObj where
  id : Nat
  attachable : Bool
  decorators : Option (List Nat)
  deriving Repr, DecidableEq

/-- `egg/decorating.py`, line 12: `has_decorator(obj, d)` is
`hasattr(obj, "__decorators__") and any(d is x for x in obj.__decorators__)`. -/
def has_decorator (obj : PyObj) (d : Nat) : Bool :=
  match obj.decorators with
  | some ds => ds.contains d
  | none => false

/-- `egg/decorating.py`, lines 16-24: `decorators_of` reads the current
`__decorators__` list (defaulting to `[]`), then tries to write it back;
if the write fails (`TypeError`/`AttributeError`) it returns `None`. -/
def decorators_of (obj : PyObj) : Option (List Nat) :=
  if obj.attachable then some (obj.decorators.getD []) else none

/-- A `_Decorator` instance: its identity, the wrapped user function (modelled
as a total map on objects: what the function returns when applied), and the
`only_once` flag. -/
structure Dec where
  id : Nat
  wrapped : PyObj → PyObj
  only_once : Bool

/-- `egg/decorating.py`, lines 42-63 (`_Decorator._call_internal`), for the
plain `d(obj)` call shape: the only-once check, the call of the wrapped
function, the `decorators_of(ret)` check raising `TypeError` on `None`, and
the final `__decorators__` update `ret ++ base ++ [self]`. -/
def call_internal (d : Dec) (obj : PyObj) : Except PyErr PyObj :=
  if d.only_once && ((decorators_of obj).getD []).contains d.id then
    .error .valueError
  else
    let ret := d.wrapped obj
    match decorators_of ret with
    | none => .error .typeError
    | some ds =>
        .ok { ret with decorators := some (ds ++ (decorators_of obj).getD [] ++ [d.id]) }

/-- `egg/decorating.py`, lines 186-187: `annotation.__call__(self, annotated)`
is literally `return annotated` — the object comes back untouched and nothing
is recorded in its `__decorators__`. -/
def annotation_apply (annotated : PyObj) : PyObj :=
  annotated

/-! ## Classes (`egg/modifiers.py`: `final`, `singleton`)

A Python class is modelled by its name, its ordinary attribute table (opaque
attribute values), what the nearest `__init_subclass__` hook does when a
subclass of it is created, its `__new__`, its `__init__`, and whether its
`__init__` is `object.__init__`. -/

structure PyClass where
  name : String
  attrs : String → Option Nat
  subclass_hook : Except PyErr Unit
  new : List Nat → Except PyErr Nat
  init : Nat → List Nat → Except PyErr Unit
  init_is_object_init : Bool

/-- Host-language semantics of a `class B(parent): body` statement: Python
first runs `parent.__init_subclass__` (propagating what it raises), then
builds the class, whose attribute lookup falls back to the parent and which
inherits the parent's hooks and constructors unless redefined. -/
def define_subclass (nm : String) (parent : PyClass) (body : String → Option Nat) :
    Except PyErr PyClass :=
  match parent.subclass_hook with
  | .error e => .error e
  | .ok _ =>
      .ok { name := nm
            attrs := fun n => (body n).orElse (fun _ => parent.attrs n)
            subclass_hook := parent.subclass_hook
            new := parent.new
            init := parent.init
            init_is_object_init := parent.init_is_object_init }

/-- Host-language semantics of calling a class: `type.__call__` runs
`cls.__new__` and then, when `__init__` is not `object.__init__`, runs
`cls.__init__` on the fresh instance. -/
def instantiate (cls : PyClass) (args : List Nat) : Except PyErr Nat :=
  match cls.new args with
  | .error e => .error e
  | .ok obj =>
      match (if cls.init_is_object_init then .ok () else cls.init obj args) with
      | .error e => .error e
      | .ok _ => .ok obj

/-- `egg/modifiers.py`, lines 287-292 (class branch of `final`): the decorated
class is replaced by `class Final(cls_)` whose `__init_subclass__` raises
`TypeError`.  Defining `Final` itself runs `cls_`'s own subclass hook, hence
the `Except`.  `Final` adds no other member, so every other lookup falls
through to `cls_`; `update_wrapper` in `_Decorator._call_internal` then copies
`cls_`'s name onto it. -/
def final (cls_ : PyClass) : Except PyErr PyClass :=
  match cls_.subclass_hook with
  | .error e => .error e
  | .ok _ =>
      .ok { name := cls_.name
            attrs := cls_.attrs
            subclass_hook := .error .typeError
            new := cls_.new
            init := cls_.init
            init_is_object_init := cls_.init_is_object_init }

/-- `egg/modifiers.py`, lines 226-258 (`singleton`): raises `TypeError` when
the class owns a custom `__init__`; otherwise builds
`class Singleton(metaclass=SingletonMeta(cls_, type))` whose `__new__` raises
`ValueError` and whose `__init_subclass__` raises `ValueError`.  Defining
`SingletonMeta(cls_, type)` runs `cls_`'s subclass hook.  Class attributes of
`cls_` stay reachable on the result through the metaclass. -/
def singleton (cls_ : PyClass) : Except PyErr PyClass :=
  if cls_.init_is_object_init = false then
    .error .typeError
  else
    match cls_.subclass_hook with
    | .error e => .error e
    | .ok _ =>
        .ok { name := cls_.name
              attrs := cls_.attrs
              subclass_hook := .error .valueError
              new := fun _ => .error .valueError
              init := fun _ _ => .ok ()
              init_is_object_init := true }

/-! ## `call_once` (`egg/modifiers.py`, lines 771-778)

The wrapper keeps one Bool of state (`_wrapper.__called__`, absent ⇒ `False`).
One call of the wrapper is embedded as a state transformer; `fres` is what the
underlying call of `func` would produce at this call (its return, or the
exception it raises). -/

def call_once_call (fres : Except PyErr Nat) (called : Bool) :
    Except PyErr Nat × Bool :=
  if called then
    (.error .nameError, called)
  else
    -- `__called__` is set to True *before* `func` runs, so the flag sticks
    -- even when `func` raises.
    (fres, true)

/-! ## Wrappers (`egg/modifiers.py`: `_WrapperBase`, `wrapper`, `unwrap`)

A wrapper class produced by `@wrapper(of=...)` is modelled by the type ids of
`of.mro()`, the type id of `of` itself, the wrapper class's own type id, and
the identity given to the fresh `of` instance that `__init__` constructs when
its argument is *not* wrapped as-is.  The claims under study quantify over
prototypes that define no `__unwrap__` (and no custom `__init__`), which is
the fragment embedded here: `__unwrap__` of a wrapper instance then returns
`self._obj` (`egg/modifiers.py`, lines 147-151). -/

structure WrapperCls where
  ofMro : List Nat
  ofTy : Nat
  clsId : Nat
  freshId : Nat
  deriving Repr, DecidableEq

/-- The object universe for wrapping: plain objects (no `__unwrap__`
attribute) and wrapper instances, which carry their `_obj`. -/
inductive WObj where
  | base (id : Nat) (ty : Nat)
  | wrapped (w : WrapperCls) (inner : WObj)
  deriving Repr, DecidableEq

/-- `type(x)`: a wrapper instance's class is the wrapper class itself. -/
def wtypeOf : WObj → Nat
  | .base _ ty => ty
  | .wrapped w _ => w.clsId

/-- `egg/modifiers.py`, lines 153-155 and 131-142: `W.__wrap__(x)` is
`W(x, wrap_it=True)`; `__init__` stores `x` itself as `_obj` when
`type(x) in of.mro()`, and otherwise treats `x` as a constructor argument and
stores a *newly built* instance of `of`. -/
def wrap_cls (w : WrapperCls) (x : WObj) : WObj :=
  if w.ofMro.contains (wtypeOf x) then
    .wrapped w x
  else
    .wrapped w (.base w.freshId w.ofTy)

/-- `egg/modifiers.py`, lines 215-219: `unwrap(obj)` loops
`obj = obj.__unwrap__()` while the attribute exists.  Plain objects have no
`__unwrap__`; a wrapper instance (prototype without `__unwrap__`) returns its
`_obj`. -/
def unwrap : WObj → WObj
  | .base i ty => .base i ty
  | .wrapped _ inner => unwrap inner

/-! ## Freezing (`egg/modifiers.py`: `freeze`, lines 696-748)

The value universe holds the six builtin types that `_frozen_builtins_mapping`
(lines 649-656) enumerates plus their frozen counterparts `tuple` and
`frozenset`.  Floats are carried as opaque bit patterns: `freeze` only ever
copies them.  The mutation contract of `freeze` is made explicit by returning
both the Python-level result and the post-call state of the argument. -/

inductive FVal where
  | fstr (s : String)
  | fint (n : Int)
  | ffloat (bits : Nat)
  | fbool (b : Bool)
  | flist (xs : List FVal)
  | fset (xs : List FVal)
  | ftuple (xs : List FVal)
  | ffrozenset (xs : List FVal)

/-- `type(v).__name__` on the freezing universe. -/
def ftyName : FVal → String
  | .fstr _ => "str"
  | .fint _ => "int"
  | .ffloat _ => "float"
  | .fbool _ => "bool"
  | .flist _ => "list"
  | .fset _ => "set"
  | .ftuple _ => "tuple"
  | .ffrozenset _ => "frozenset"

/-- `egg/modifiers.py`, lines 649-656: `_frozen_builtins_mapping` keyed by
exact type; applying the mapped constructor to the value (`str(v)`, `int(v)`,
`float(v)`, `bool(v)`, `tuple(v)`, `frozenset(v)`).  `none` when the type is
not a key. -/
def frozen_builtins_mapping : FVal → Option FVal
  | .fstr s => some (.fstr s)
  | .fint n => some (.fint n)
  | .ffloat b => some (.ffloat b)
  | .fbool b => some (.fbool b)
  | .flist xs => some (.ftuple xs)
  | .fset xs => some (.ffrozenset xs)
  | .ftuple _ => none
  | .ffrozenset _ => none

/-- `egg/modifiers.py`, lines 721-727 (the branches `freeze` takes on this
value universe): for a builtin-typed value, `in_place=True` raises
`UnfreezableObjectError` and otherwise the mapped constructor's result is
returned with the argument untouched; `tuple`/`frozenset` have no
`@freezable`-decorated class, so `freeze` raises `UnfreezableObjectError` on
them.  The result pair is (returned value, state of the argument after the
call). -/
def freeze (obj : FVal) (in_place : Bool) : Except PyErr (FVal × FVal) :=
  match frozen_builtins_mapping obj with
  | some frozen =>
      if in_place then .error .unfreezableObjectError
      else .ok (frozen, obj)
  | none => .error .unfreezableObjectError

/-! ## CSV interface (`hypnosis/interfaces.py`, lines 119-126 and 82-86) -/

/-- Python `str.strip()` (whitespace on both ends). -/
def pyStrip (s : String) : String :=
  s.trim

/-- `CsvInterface._as_python_object` (`hypnosis/interfaces.py`, lines 122-126):
`[[it.strip() for it in re.split("[,;]", line) if it.strip() != ""]
  for line in file_content.split("\n") if line.strip() != ""]`. -/
def csv_as_python_object (file_content : String) : List (List String) :=
  ((file_content.splitOn "\n").filter (fun line => pyStrip line != "")).map
    (fun line =>
      ((line.split (fun c => c == ',' || c == ';')).filter
        (fun it => pyStrip it != "")).map pyStrip)

/-- `ExtraInterface.exec_module` (`hypnosis/interfaces.py`, lines 82-86): the
module's dictionary gains one binding, `storage_field` ↦ the parse of the file
text; everything else is untouched. -/
def exec_module_csv (storage_field : String) (file_content : String)
    (module_dict : String → Option (List (List String))) :
    String → Option (List (List String)) :=
  fun k => if k = storage_field then some (csv_as_python_object file_content) else module_dict k

/-- The spec's reading of the parse (a second definition, following the
claim's words): for each line whose stripped text is non-empty, the list of
whitespace-stripped cells obtained by splitting the line on a comma or a
semicolon, with empty cells dropped. -/
def csvParseSpec (file_content : String) : List (List String) :=
  (file_content.splitOn "\n").filterMap (fun line =>
    if pyStrip line = "" then none
    else some (((line.split (fun c => c == ',' || c == ';')).map pyStrip).filter
      (fun cell => cell != "")))

/-! ## Runtime-type-tag JSON fields (`egg/io.py`)

The value universe holds the JSON-able kinds `create_field` dispatches on:
strings, ints, bools, lists and dicts (`JsonIOSupporter` components are not
needed by the property under study). -/

inductive JVal where
  | s (v : String)
  | i (v : Int)
  | b (v : Bool)
  | l (xs : List JVal)
  | d (kvs : List (String × JVal))

/-- `type(value).__name__` on the `JVal` universe. -/
def jtyName : JVal → String
  | .s _ => "str"
  | .i _ => "int"
  | .b _ => "bool"
  | .l _ => "list"
  | .d _ => "dict"

/-- Python `str()` on the non-str/list/dict values of the universe
(`str(True) = "True"`, `str(False) = "False"`, decimal rendering of ints). -/
def pyStrOfAtom : JVal → String
  | .i n => toString n
  | .b true => "True"
  | .b false => "False"
  | _ => ""

/-- `JsonIOSupporter.__Dumper.create_field` (`egg/io.py`, lines 65-75): str,
list and dict values are stored as they are; any other value is stored as the
tagged string `"<" + type(value).__name__ + ">" + str(value)`. -/
def create_field : JVal → JVal
  | .s v => .s v
  | .l xs => .l xs
  | .d kvs => .d kvs
  | v => .s ("<" ++ jtyName v ++ ">" ++ pyStrOfAtom v)

/-- A regex word character: `\w` (and `\d`, `_`) over the ASCII fragment the
tags live in. -/
def isWordChar (c : Char) : Bool :=
  c.isAlphanum || c == '_'

/-- The match of `JsonIO.cast_regex` (`egg/io.py`, line 102):
`(<(?P<data_type>[\w_][\w\d_]*)>)?(?P<raw_data>.*)` applied with `.match`.
The optional tag group matches exactly when the string starts with `<`, one or
more word characters, then `>`: the identifier part is a maximal word-char
run, and no backtracking can help because a shorter run is followed by a word
character, never by `>`.  `raw_data`'s `.*` stops at the first newline (and
`.match` does not require the match to reach the end of the string).  Returns
(the `data_type` group, the `raw_data` group). -/
def cast_regex_match (data : String) : Option String × String :=
  match data.toList with
  | '<' :: rest =>
      let identChars := rest.takeWhile isWordChar
      (match identChars, rest.dropWhile isWordChar with
        | _ :: _, '>' :: raw =>
            (some (String.mk identChars), String.mk (raw.takeWhile (fun c => c ≠ '\n')))
        | _, _ =>
            (none, String.mk (data.toList.takeWhile (fun c => c ≠ '\n'))))
  | _ => (none, String.mk (data.toList.takeWhile (fun c => c ≠ '\n')))

/-- Python `int(s)` on the fragment reachable from decoding: optional
surrounding whitespace, an optional sign, then one or more decimal digits;
anything else raises `ValueError`. -/
def pyIntOfString (s : String) : Except PyErr Int :=
  match (pyStrip s).toList with
  | '-' :: ds =>
      if ds ≠ [] && ds.all Char.isDigit then
        .ok (-(Int.ofNat (String.mk ds).toNat!))
      else .error .valueError
  | '+' :: ds =>
      if ds ≠ [] && ds.all Char.isDigit then
        .ok (Int.ofNat (String.mk ds).toNat!)
      else .error .valueError
  | ds =>
      if ds ≠ [] && ds.all Char.isDigit then
        .ok (Int.ofNat (String.mk ds).toNat!)
      else .error .valueError

/-- `JsonIO._cast_data` (`egg/io.py`, lines 104-112): match the cast regex; if
the `data_type` group is present, `eval(data_type)(raw_data)` — `str` returns
the string, `int` parses it, `bool` of a string is its non-emptiness, any
other name is not a known constructor here (`eval` raises `NameError`); with
no tag, the raw data string is returned. -/
def cast_data (data : String) : Except PyErr JVal :=
  match cast_regex_match data with
  | (some ty, raw) =>
      if ty = "str" then .ok (.s raw)
      else if ty = "int" then (pyIntOfString raw).map .i
      else if ty = "bool" then .ok (.b (raw != ""))
      else .error .nameError
  | (none, raw) => .ok (.s raw)

/-! ## Assignation-statement parsing behind `getter` (`egg/reflection.py`,
`egg/modifiers.py` lines 574-586)

`getter.__assignation_regex__` is
`^(get_)?(?P<name>[\w_][\w\d_]*)\s*(:\s*[\w_][\w\d_]*\s*)?=.*$`
(`AssignableFactory._make_regex` with `unmatched_identifier_prefix="(get_)?"`,
`egg/reflection.py` lines 161-172), applied with `.match` to the source line
of the declaration statement.  The matcher below transcribes it:

* identifier runs are maximal word-char runs (a shorter run is followed by a
  word character, which can never satisfy the `\s*`, `:` or `=` that follows,
  so greedy maximal munch is exact);
* the greedy optional `(get_)?` is tried first with the prefix consumed, then
  without it;
* `.*$` holds of the remainder exactly when it contains no newline besides,
  possibly, one final newline. -/

/-- `.*$` (no `re.MULTILINE`): everything up to the end, allowing one trailing
newline. -/
def restOk (r : List Char) : Bool :=
  !(r.contains '\n') || (r.getLast? == some '\n' && !(r.dropLast.contains '\n'))

/-- `\s*(:\s*[\w_][\w\d_]*\s*)?=.*$` — the tail of the assignation regex after
the `name` group. -/
def tail_match (cs : List Char) : Bool :=
  match cs.dropWhile Char.isWhitespace with
  | '=' :: rest => restOk rest
  | ':' :: rest =>
      let rest1 := rest.dropWhile Char.isWhitespace
      (match rest1.takeWhile isWordChar, rest1.dropWhile isWordChar with
        | _ :: _, rest2 =>
            (match rest2.dropWhile Char.isWhitespace with
              | '=' :: rest3 => restOk rest3
              | _ => false)
        | [], _ => false)
  | _ => false

/-- `(?P<name>[\w_][\w\d_]*)` followed by the tail: returns the `name` group. -/
def name_match (cs : List Char) : Option String :=
  match cs.takeWhile isWordChar with
  | [] => none
  | nm => if tail_match (cs.dropWhile isWordChar) then some (String.mk nm) else none

/-- The full `getter` assignation regex applied with `.match`: the greedy
`(get_)?` alternative first, the prefix-less one second. -/
def getter_assignation_match (s : String) : Option String :=
  match s.toList with
  | 'g' :: 'e' :: 't' :: '_' :: rest =>
      match name_match rest with
      | some nm => some nm
      | none => name_match s.toList
  | _ => name_match s.toList

/-- `_parse_declaration_statement` (`egg/reflection.py`, lines 68-89) combined
with `getter.__error_handler__` (`egg/modifiers.py`, lines 576-578) and the
factory call (`_AssignableFactoryMeta.__call__`, `egg/reflection.py`, lines
143-157): on a match, the `name` group is what reaches `__build__`; otherwise
the error handler raises `SyntaxError`. -/
def getter_factory_parse (stmt : String) : Except PyErr String :=
  match getter_assignation_match stmt with
  | some nm => .ok nm
  | none => .error .syntaxError

/-- The claim's reading of a successful parse: the statement is an identifier,
optionally prefixed by `get_`, optionally type-annotated, followed by `=` and
an expression — and `nm` is the identifier (the `name` group). -/
def GetterSpecShape (s : String) (nm : String) : Prop :=
  ∃ pre tail,
    s.toList = pre ++ nm.toList ++ tail ∧
    (pre = [] ∨ pre = ['g', 'e', 't', '_']) ∧
    nm.toList ≠ [] ∧
    (∀ c ∈ nm.toList, isWordChar c = true) ∧
    '=' ∈ tail

/-! ## Concrete inputs used by counterexamples and witnesses -/

/-- An object that cannot receive a `__decorators__` attribute (for example a
slotted instance without `'__decorators__'` in its `__slots__`). -/
def slottedObj : PyObj := { id := 0, attachable := false, decorators := none }

/-- A decorator whose underlying function ignores its argument and returns a
fresh ordinary object (to which `__decorators__` attaches fine). -/
def freshReturningDec : Dec :=
  { id := 1, wrapped := fun _ => { id := 2, attachable := true, decorators := none },
    only_once := true }

/-- An identity-style decorator: its underlying function returns the decorated
object itself, as `final` does on functions. -/
def identityDec : Dec :=
  { id := 3, wrapped := fun obj => obj, only_once := true }

/-- A wrapper class whose `of` has mro `[7]` (type id 7). -/
def w0 : WrapperCls := { ofMro := [7], ofTy := 7, clsId := 10, freshId := 99 }

/-- A plain object of type id 5 — not an instance of `w0`'s `of`. -/
def x0 : WObj := .base 0 5

/-- A class with `object.__init__`, a benign subclass hook, and one attribute. -/
def cGood : PyClass :=
  { name := "A"
    attrs := fun n => if n = "a" then some 11 else none
    subclass_hook := .ok ()
    new := fun _ => .ok 42
    init := fun _ _ => .ok ()
    init_is_object_init := true }

/-- A class owning a custom `__init__`. -/
def cCustomInit : PyClass :=
  { name := "B"
    attrs := fun _ => none
    subclass_hook := .ok ()
    new := fun _ => .ok 43
    init := fun _ _ => .ok ()
    init_is_object_init := false }

/-- The claim's frozen counterpart of a builtin value: the equal
str/int/float/bool, `tuple(v)` for a list, `frozenset(v)` for a set
(a second definition, following the claim's words). -/
def frozenCounterpartSpec : FVal → FVal
  | .fstr s => .fstr s
  | .fint n => .fint n
  | .ffloat b => .ffloat b
  | .fbool b => .fbool b
  | .flist xs => .ftuple xs
  | .fset xs => .ffrozenset xs
  | v => v

/-- The singleton class that `singleton cGood` produces. -/
def sGood : PyClass :=
  { name := "A"
    attrs := cGood.attrs
    subclass_hook := .error .valueError
    new := fun _ => .error .valueError
    init := fun _ _ => .ok ()
    init_is_object_init := true }

/-!
# Theorems
-/

/-- Elements survive `dropWhile`. -/
theorem mem_of_mem_dropWhile {α} (p : α → Bool) (l : List α) (x : α)
    (h : x ∈ l.dropWhile p) : x ∈ l := by
  induction l with
  | nil => simp [List.dropWhile] at h
  | cons a t ih =>
      rw [List.dropWhile] at h
      by_cases hp : p a
      · simp [hp] at h
        exact List.mem_cons_of_mem a (ih h)
      · simpa [hp] using h

/-- C1: for every class decorated with `@final`, defining any subclass of the
result raises `TypeError`, while the returned class otherwise behaves like the
original: same attributes and same instantiation behaviour. -/
theorem C1_final_class (c : PyClass) (h : c.subclass_hook = Except.ok ()) :
    ∃ fc, final c = Except.ok fc ∧
      (∀ nm body, define_subclass nm fc body = Except.error PyErr.typeError) ∧
      (∀ n, fc.attrs n = c.attrs n) ∧
      (∀ args, instantiate fc args = instantiate c args) := by
  refine ⟨{ name := c.name, attrs := c.attrs, subclass_hook := .error .typeError,
            new := c.new, init := c.init, init_is_object_init := c.init_is_object_init },
          ?_, fun nm body => rfl, fun n => rfl, fun args => rfl⟩
  unfold final
  rw [h]

/-- C1 witness: the theorem applied to the concrete class `cGood`. -/
theorem C1_witness :
    cGood.subclass_hook = Except.ok () ∧
    (∃ fc, final cGood = Except.ok fc ∧
      (∀ nm body, define_subclass nm fc body = Except.error PyErr.typeError) ∧
      (∀ n, fc.attrs n = cGood.attrs n) ∧
      (∀ args, instantiate fc args = instantiate cGood args)) :=
  ⟨rfl, C1_final_class cGood rfl⟩

/-- C2 counterexample: `slottedObj` cannot receive `__decorators__`, yet
applying `freshReturningDec` — a decorator from the same facility whose
underlying function returns a fresh attachable object — succeeds instead of
raising `TypeError`, because `_call_internal` checks the *returned* object. -/
theorem C2_counterexample :
    decorators_of slottedObj = none ∧
    call_internal freshReturningDec slottedObj =
      Except.ok { id := 2, attachable := true, decorators := some [1] } :=
  ⟨rfl, rfl⟩

/-- C2 (amended): applying a decorator raises `TypeError` when the object the
underlying function returns cannot receive `__decorators__`; in particular an
identity-style decorator applied to an unattachable object raises. -/
theorem C2_decorating_unattachable (d : Dec) (obj : PyObj)
    (hobj : obj.attachable = false)
    (hret : (d.wrapped obj).attachable = false) :
    call_internal d obj = Except.error PyErr.typeError := by
  simp [call_internal, decorators_of, hobj, hret]

/-- C2 witness: the identity-style decorator on the slotted object. -/
theorem C2_witness :
    slottedObj.attachable = false ∧
    (identityDec.wrapped slottedObj).attachable = false ∧
    call_internal identityDec slottedObj = Except.error PyErr.typeError :=
  ⟨rfl, rfl, C2_decorating_unattachable identityDec slottedObj rfl rfl⟩

/-- C3: evaluation at the failing input `False`.  The encoder stores
`"<bool>False"`, but the decoder computes `bool("False")`, and `bool` of any
non-empty string is `True` — so the decode does not invert the encode. -/
theorem C3_bool_false_roundtrip :
    create_field (JVal.b false) = JVal.s "<bool>False" ∧
    cast_data "<bool>False" = Except.ok (JVal.b true) ∧
    JVal.b true ≠ JVal.b false := by
  refine ⟨rfl, rfl, ?_⟩
  simp

/-- C4: for every value of one of the six builtin types in
`_frozen_builtins_mapping`, `freeze` with `in_place=False` returns the frozen
counterpart and leaves the value untouched, while `in_place=True` raises
`UnfreezableObjectError`. -/
theorem C4_freeze_builtin (v : FVal) (h : (frozen_builtins_mapping v).isSome = true) :
    freeze v false = Except.ok (frozenCounterpartSpec v, v) ∧
    freeze v true = Except.error PyErr.unfreezableObjectError := by
  cases v <;> first
    | exact ⟨rfl, rfl⟩
    | simp [frozen_builtins_mapping] at h

/-- C4 witness: freezing the list `[1]`. -/
theorem C4_witness :
    (frozen_builtins_mapping (FVal.flist [FVal.fint 1])).isSome = true ∧
    freeze (FVal.flist [FVal.fint 1]) false =
      Except.ok (FVal.ftuple [FVal.fint 1], FVal.flist [FVal.fint 1]) ∧
    freeze (FVal.flist [FVal.fint 1]) true =
      Except.error PyErr.unfreezableObjectError :=
  ⟨rfl, (C4_freeze_builtin (FVal.flist [FVal.fint 1]) rfl).1,
        (C4_freeze_builtin (FVal.flist [FVal.fint 1]) rfl).2⟩

/-- Per-line part of C5: filtering the raw cells on the emptiness of their
stripped text and then stripping is the same as stripping every cell and then
dropping the empty ones. -/
theorem strip_filter_comm (cells : List String) :
    ((cells.filter (fun it => pyStrip it != "")).map pyStrip)
      = ((cells.map pyStrip).filter (fun cell => cell != "")) := by
  induction cells with
  | nil => rfl
  | cons c t ih =>
      by_cases hc : pyStrip c = ""
      · simp [List.filter_cons, hc, ih]
      · simp [List.filter_cons, hc, ih]

/-- C5: importing a `.csv` file binds the module's content attribute to the
parse of the file text, and that parse is, line by line (dropping lines whose
stripped text is empty), the whitespace-stripped cells of the split on commas
and semicolons with empty cells dropped. -/
theorem C5_csv_import (sf content : String) (m : String → Option (List (List String))) :
    exec_module_csv sf content m sf = some (csv_as_python_object content) ∧
    csv_as_python_object content = csvParseSpec content := by
  constructor
  · simp [exec_module_csv]
  · unfold csv_as_python_object csvParseSpec
    generalize content.splitOn "\n" = lines
    induction lines with
    | nil => rfl
    | cons line t ih =>
        by_cases hl : pyStrip line = ""
        · simp [List.filter_cons, List.filterMap_cons, hl, ih]
        · simp only [strip_filter_comm] at ih
          simp [List.filter_cons, List.filterMap_cons, hl, ih, strip_filter_comm]

/-- C6: `@singleton` raises `TypeError` when the class owns a custom
`__init__`; when it succeeds, every attempt to instantiate the resulting
class raises `ValueError`. -/
theorem C6_singleton (c : PyClass) :
    (c.init_is_object_init = false → singleton c = Except.error PyErr.typeError) ∧
    (∀ s, singleton c = Except.ok s →
      ∀ args, instantiate s args = Except.error PyErr.valueError) := by
  constructor
  · intro h
    simp [singleton, h]
  · intro s hs args
    by_cases h : c.init_is_object_init = false
    · simp [singleton, h] at hs
    · simp [singleton, h] at hs
      cases hh : c.subclass_hook with
      | error e => rw [hh] at hs; simp at hs
      | ok u =>
          rw [hh] at hs
          simp at hs
          rw [← hs]
          rfl

/-- C6 witness: the theorem applied to a class with a custom `__init__` and to
`cGood`, whose singleton is `sGood`. -/
theorem C6_witness :
    (cCustomInit.init_is_object_init = false ∧
      singleton cCustomInit = Except.error PyErr.typeError) ∧
    (singleton cGood = Except.ok sGood ∧
      ∀ args, instantiate sGood args = Except.error PyErr.valueError) :=
  ⟨⟨rfl, (C6_singleton cCustomInit).1 rfl⟩,
   ⟨rfl, (C6_singleton cGood).2 sGood rfl⟩⟩

/-- A successful `tail_match` guarantees an `=` sign in the consumed tail. -/
theorem tail_match_mem (cs : List Char) (h : tail_match cs = true) : '=' ∈ cs := by
  unfold tail_match at h
  split at h
  next rest heq =>
    exact mem_of_mem_dropWhile _ _ _ (heq ▸ List.mem_cons_self '=' rest)
  next rest heq =>
    dsimp only at h
    split at h
    next c cs' rest2 heq2 =>
      split at h
      next rest3 heq3 =>
        have h1 : '=' ∈ rest :=
          mem_of_mem_dropWhile _ _ _ (mem_of_mem_dropWhile _ _ _
            (mem_of_mem_dropWhile _ _ _ (heq3 ▸ List.mem_cons_self '=' rest3)))
        exact mem_of_mem_dropWhile _ _ _ (heq ▸ List.mem_cons_of_mem ':' h1)
      next => exact absurd h (by simp)
    next => exact absurd h (by simp)
  next => exact absurd h (by simp)

/-- Soundness of the name-and-tail matcher: on success, the statement starts
with the returned identifier, which is followed by an `=` somewhere after. -/
theorem name_match_sound (cs : List Char) (nm : String) (h : name_match cs = some nm) :
    nm.toList ≠ [] ∧ (∀ c ∈ nm.toList, isWordChar c = true) ∧
    ∃ tail, cs = nm.toList ++ tail ∧ '=' ∈ tail := by
  unfold name_match at h
  split at h
  next => exact absurd h (by simp)
  next heq =>
    by_cases htm : tail_match (cs.dropWhile isWordChar) = true
    · rw [if_pos htm] at h
      injection h with h'
      subst h'
      refine ⟨heq, fun c hc => List.mem_takeWhile_imp hc,
        List.dropWhile isWordChar cs, ?_, tail_match_mem _ htm⟩
      conv_lhs => rw [← List.takeWhile_append_dropWhile isWordChar cs]
      rfl
    · rw [if_neg htm] at h
      exact absurd h (by simp)


/-- Soundness of the full `getter` assignation regex. -/
theorem getter_assignation_match_sound (s : String) (nm : String)
    (h : getter_assignation_match s = some nm) : GetterSpecShape s nm := by
  unfold getter_assignation_match at h
  split at h
  next rest heq =>
    cases hn : name_match rest with
    | some nm2 =>
        rw [hn] at h
        injection h with h'
        subst h'
        obtain ⟨h1, h2, tail, h3, h4⟩ := name_match_sound rest nm2 hn
        refine ⟨['g', 'e', 't', '_'], tail, ?_, Or.inr rfl, h1, h2, h4⟩
        rw [heq, h3]
        rfl
    | none =>
        rw [hn] at h
        obtain ⟨h1, h2, tail, h3, h4⟩ := name_match_sound _ nm h
        exact ⟨[], tail, by rw [h3]; rfl, Or.inl rfl, h1, h2, h4⟩
  next =>
    obtain ⟨h1, h2, tail, h3, h4⟩ := name_match_sound _ nm h
    exact ⟨[], tail, by rw [h3]; rfl, Or.inl rfl, h1, h2, h4⟩


/-- C7: for every declaration-statement string, either the `getter` factory's
assignation regex matches — the statement is an identifier optionally
prefixed by `get_`, followed (possibly via a type annotation) by `=` and an
expression — and the `name` group is what reaches `__build__`, or the
factory's error handler raises `SyntaxError`. -/
theorem C7_getter_declaration (stmt : String) :
    (∃ nm, getter_factory_parse stmt = Except.ok nm ∧ GetterSpecShape stmt nm) ∨
    getter_factory_parse stmt = Except.error PyErr.syntaxError := by
  cases hm : getter_assignation_match stmt with
  | some nm =>
      exact Or.inl ⟨nm, by unfold getter_factory_parse; rw [hm],
        getter_assignation_match_sound stmt nm hm⟩
  | none =>
      right
      unfold getter_factory_parse
      rw [hm]

/-- C8: applying an `annotation` instance returns the object itself unchanged
and records nothing, so an object whose `__decorators__` did not already hold
the annotation still does not hold it afterwards. -/
theorem C8_annotation_is_noop (a : Nat) (obj : PyObj)
    (h : has_decorator obj a = false) :
    annotation_apply obj = obj ∧ has_decorator (annotation_apply obj) a = false :=
  ⟨rfl, h⟩

/-- C8 witness: the theorem applied to the slotted object and annotation id 5. -/
theorem C8_witness :
    has_decorator slottedObj 5 = false ∧
    (annotation_apply slottedObj = slottedObj ∧
      has_decorator (annotation_apply slottedObj) 5 = false) :=
  ⟨rfl, C8_annotation_is_noop 5 slottedObj rfl⟩

/-- C9 counterexample: with no earlier call started (`called = false`), a
first call whose underlying function itself raises `NameError` makes the
wrapper raise `NameError` — refuting the claimed equivalence as stated. -/
theorem C9_counterexample :
    ¬ (((call_once_call (Except.error PyErr.nameError) false).1
          = Except.error PyErr.nameError) ↔ false = true) := by
  simp [call_once_call]

/-- C9 (amended): for every function whose underlying call does not itself
raise `NameError`, a call to the `@call_once` wrapper raises `NameError` if
and only if an earlier call was started; a first call returns the underlying
function's result (or propagates its exception) and marks the wrapper as
called either way. -/
theorem C9_call_once (fres : Except PyErr Nat) (called : Bool)
    (hf : fres ≠ Except.error PyErr.nameError) :
    ((call_once_call fres called).1 = Except.error PyErr.nameError ↔ called = true) ∧
    (called = false → call_once_call fres called = (fres, true)) := by
  cases called <;> simp [call_once_call, hf]

/-- C9 witness: the theorem applied to a function returning `7`, in the
already-called state. -/
theorem C9_witness :
    ((Except.ok 7 : Except PyErr Nat) ≠ Except.error PyErr.nameError) ∧
    (((call_once_call (Except.ok 7) true).1 = Except.error PyErr.nameError ↔
        true = true) ∧
      (true = false → call_once_call (Except.ok 7) true = (Except.ok 7, true))) :=
  ⟨fun h => Except.noConfusion h,
   C9_call_once (Except.ok 7) true (fun h => Except.noConfusion h)⟩

/-- C10 counterexample: `x0`'s type is not in `w0`'s `of.mro()`, so
`__wrap__` builds a fresh instance instead of storing `x0`, and unwrapping
does not give `x0` back. -/
theorem C10_counterexample : unwrap (wrap_cls w0 x0) ≠ x0 := by
  decide

/-- C10 (amended): for every object `x` with no `__unwrap__` whose type lies
in `of.mro()` — so that `__wrap__` stores `x` itself — and every wrapper
class whose prototype defines no `__unwrap__`, `unwrap (W.__wrap__ x)` is
exactly `x`. -/
theorem C10_wrap_unwrap (w : WrapperCls) (i ty : Nat)
    (h : w.ofMro.contains ty = true) :
    unwrap (wrap_cls w (WObj.base i ty)) = WObj.base i ty := by
  have hm : ty ∈ w.ofMro := by simpa using h
  simp [wrap_cls, wtypeOf, hm, unwrap]

/-- C10 witness: wrapping an instance of `w0`'s `of` type. -/
theorem C10_witness :
    w0.ofMro.contains 7 = true ∧
    unwrap (wrap_cls w0 (WObj.base 3 7)) = WObj.base 3 7 :=
  ⟨rfl, C10_wrap_unwrap w0 3 7 rfl⟩

end Kobra
